import Mathlib

/-!
Shallow embedding of the data layer of the travel-agency demo application
(src/context/DataContext.tsx), in demo mode (DEMO_MODE = true).

Modelling conventions:
* JS numbers (amounts, balances) are rationals; the literal 0.01 is 1/100.
* Calendar values (booking dates, thresholds, "today") are integer day
  indices; "new Date" day truncation and "setDate(+k)" become the identity
  and "+ k" on day indices, which preserves all order comparisons the code
  performs.
* "Date.now()"-based id generation is passed in as an explicit "now"
  parameter, so "B" + Date.now() becomes "B" ++ toString now, etc.
* Optional / possibly-absent JS fields are Option; the JS truthiness test
  on them is matched against some/none (the empty string is kept explicit
  where the code tests a string field for truthiness).
* React setX(prev => ...) updates inside one mutator are applied
  sequentially; all find-lookups read the pre-call state, exactly as the
  closure captures do in the source. The collections touched by distinct
  setter calls inside one mutator are disjoint, so the sequential
  composition agrees with the batched React update.
* Display-only alert fields (message text, creation timestamp), the audit
  log, notifications, localStorage mirroring and the Supabase branch
  (dead in demo mode) are outside the modelled state.
-/

namespace Hawana

inductive BookingStatus
  | PENDING
  | CONFIRMED
  | CANCELLED
  | VOIDED
  deriving DecidableEq, Repr

inductive TransactionType
  | INCOME
  | EXPENSE
  deriving DecidableEq, Repr

inductive AlertType
  | critical
  | warning
  | info
  deriving DecidableEq, Repr

inductive NavPage
  | DASHBOARD
  | BOOKINGS
  deriving DecidableEq, Repr

structure Payment where
  id : String
  date : Int
  finalAmount : ℚ
  treasuryId : Option String
  deriving DecidableEq, Repr

structure Passenger where
  name : String
  passportSubmitted : Bool
  deriving DecidableEq, Repr

/-- Booking service line; fields not read by the verified operations are
omitted. -/
structure Service where
  id : String
  type : String
  flightDate : Option Int := none
  checkIn : Option Int := none
  deriving DecidableEq, Repr

structure Booking where
  id : String
  clientName : String
  clientPhone : String
  fileNo : Option String
  destination : String
  date : Int
  type : String
  status : BookingStatus
  amount : ℚ
  paidAmount : ℚ
  paymentStatus : String
  payments : List Payment
  passengers : List Passenger
  services : List Service
  deriving DecidableEq, Repr

/-- The argument of addBooking: Omit of Booking without id (createdAt and
createdBy are display-only and outside the model). -/
structure BookingData where
  clientName : String
  clientPhone : String
  fileNo : Option String
  destination : String
  date : Int
  type : String
  status : BookingStatus
  amount : ℚ
  paidAmount : ℚ
  paymentStatus : String
  payments : List Payment
  passengers : List Passenger
  services : List Service
  deriving DecidableEq, Repr

structure Transaction where
  id : String
  description : String
  amount : ℚ
  date : Int
  type : TransactionType
  category : String
  referenceNo : Option String
  treasuryId : Option String
  deriving DecidableEq, Repr

/-- The argument of addTransaction: Omit of Transaction without id. -/
structure TransactionData where
  description : String
  amount : ℚ
  date : Int
  type : TransactionType
  category : String
  referenceNo : Option String := none
  treasuryId : Option String
  deriving DecidableEq, Repr

structure Agent where
  id : String
  name : String
  balance : ℚ
  deriving DecidableEq, Repr

structure Client where
  id : String
  name : String
  type : String
  balance : ℚ
  phone : String
  email : String
  deriving DecidableEq, Repr

structure Treasury where
  id : String
  name : String
  balance : ℚ
  deriving DecidableEq, Repr

structure AlertSettings where
  enableFinancialAlerts : Bool
  financialAlertDays : Int
  enablePassportAlerts : Bool
  passportAlertDays : Int
  enableFlightAlerts : Bool
  flightAlertDays : Int
  enableHotelAlerts : Bool
  hotelAlertDays : Int
  deriving DecidableEq, Repr

structure CompanySettings where
  nameAr : String
  nameEn : String
  logoText : String
  address : String
  phone : String
  email : String
  logoUrl : String
  logoVisibility : String
  alertSettings : Option AlertSettings
  deriving DecidableEq, Repr

/-- Smart alert record; the display-only message and date fields are
omitted. -/
structure SmartAlert where
  id : String
  title : String
  type : AlertType
  category : String
  linkPage : NavPage
  deriving DecidableEq, Repr

/-- alertSettings of DEFAULT_COMPANY_SETTINGS. -/
def defaultAlertSettings : AlertSettings :=
  { enableFinancialAlerts := true
    financialAlertDays := 3
    enablePassportAlerts := true
    passportAlertDays := 7
    enableFlightAlerts := true
    flightAlertDays := 1
    enableHotelAlerts := true
    hotelAlertDays := 1 }

/-- The full in-memory store state of the DataProvider (demo mode). -/
structure DataState where
  bookings : List Booking
  bookingsTotal : Int
  allBookings : List Booking
  transactions : List Transaction
  transactionsTotal : Int
  allTransactions : List Transaction
  agents : List Agent
  clients : List Client
  treasury : List Treasury
  smartAlerts : List SmartAlert
  companySettings : CompanySettings
  deriving DecidableEq, Repr

/-! ### String helpers: JS String.prototype.includes over char lists -/

def listStartsWith : List Char → List Char → Bool
  | _, [] => true
  | [], _ :: _ => false
  | a :: as, b :: bs => a == b && listStartsWith as bs

def listContainsSeq (needle : List Char) : List Char → Bool
  | [] => needle.isEmpty
  | a :: as => listStartsWith (a :: as) needle || listContainsSeq needle as

/-- JS hay.includes(needle). -/
def strIncludes (hay needle : String) : Bool :=
  listContainsSeq needle.data hay.data

/-! ### Smart alerts generator (generateSmartAlerts) -/

def alertPriority : AlertType → Nat
  | AlertType.critical => 0
  | AlertType.warning => 1
  | AlertType.info => 2

/-- JS "n || d" on numbers appearing in the threshold computations:
0 is falsy, every other integer is truthy. -/
def orDays (n d : Int) : Int := if n = 0 then d else n

/-- Section "1. URGENT FINANCIAL CHECK" of the forEach body. -/
def finAlertsOf (alertPrefs : AlertSettings) (today : Int) (booking : Booking) :
    List SmartAlert :=
  if alertPrefs.enableFinancialAlerts then
    let remaining := booking.amount - booking.paidAmount
    if today ≤ booking.date ∧
        booking.date ≤ today + orDays alertPrefs.financialAlertDays 3 ∧
        (1 : ℚ)/100 < remaining ∧ booking.status = BookingStatus.CONFIRMED then
      [{ id := "fin-urgent-" ++ booking.id, title := "تنبيه مالي عاجل",
         type := AlertType.critical, category := "Finance",
         linkPage := NavPage.BOOKINGS }]
    else if (1 : ℚ)/100 < remaining ∧ booking.status ≠ BookingStatus.CANCELLED ∧
        booking.status ≠ BookingStatus.VOIDED then
      if today ≤ booking.date then
        [{ id := "fin-" ++ booking.id, title := "ذمم مالية",
           type := AlertType.warning, category := "Finance",
           linkPage := NavPage.BOOKINGS }]
      else []
    else []
  else []

/-- Section "2. PASSPORT CHECK" of the forEach body. -/
def ppAlertsOf (alertPrefs : AlertSettings) (today : Int) (booking : Booking) :
    List SmartAlert :=
  if alertPrefs.enablePassportAlerts ∧ booking.status = BookingStatus.CONFIRMED ∧
      today ≤ booking.date ∧
      booking.date ≤ today + orDays alertPrefs.passportAlertDays 7 then
    let missingPassports :=
      (booking.passengers.filter (fun p => !p.passportSubmitted)).length
    if 0 < missingPassports then
      [{ id := "pp-" ++ booking.id, title := "جوازات سفر ناقصة",
         type := AlertType.warning, category := "Booking",
         linkPage := NavPage.BOOKINGS }]
    else []
  else []

/-- Section "3. SERVICE CHECKS" of the forEach body, for one service. -/
def serviceAlertsOf (alertPrefs : AlertSettings) (today : Int) (booking : Booking)
    (service : Service) : List SmartAlert :=
  (if alertPrefs.enableFlightAlerts ∧ service.type = "Flight" ∧
      service.flightDate.isSome ∧ booking.status = BookingStatus.CONFIRMED then
    match service.flightDate with
    | some fd =>
        if fd = today + orDays alertPrefs.flightAlertDays 1 then
          [{ id := "flight-" ++ service.id, title := "تذكير موعد رحلة",
             type := AlertType.info, category := "Flight",
             linkPage := NavPage.BOOKINGS }]
        else []
    | none => []
  else []) ++
  (if alertPrefs.enableHotelAlerts ∧ service.type = "Hotel" ∧
      service.checkIn.isSome ∧ booking.status = BookingStatus.CONFIRMED then
    match service.checkIn with
    | some ci =>
        if ci = today + orDays alertPrefs.hotelAlertDays 1 then
          [{ id := "hotel-" ++ service.id, title := "تذكير دخول فندق",
             type := AlertType.info, category := "Booking",
             linkPage := NavPage.BOOKINGS }]
        else []
    | none => []
  else [])

/-- One iteration of bookingsData.forEach. -/
def bookingAlerts (alertPrefs : AlertSettings) (today : Int) (booking : Booking) :
    List SmartAlert :=
  finAlertsOf alertPrefs today booking ++
  ppAlertsOf alertPrefs today booking ++
  booking.services.flatMap (serviceAlertsOf alertPrefs today booking)

/-- The alerts array accumulated over all bookings, before sorting. -/
def generateAlerts (alertPrefs : AlertSettings) (today : Int)
    (bookingsData : List Booking) : List SmartAlert :=
  bookingsData.flatMap (bookingAlerts alertPrefs today)

/-- Stable insertion of one alert behind all alerts of smaller-or-equal
priority; foldr over it models the stable JS Array.prototype.sort with
comparator priority a - priority b. -/
def insertByPriority (a : SmartAlert) : List SmartAlert → List SmartAlert
  | [] => [a]
  | b :: l =>
      if alertPriority a.type < alertPriority b.type then a :: b :: l
      else b :: insertByPriority a l

def sortAlerts (l : List SmartAlert) : List SmartAlert :=
  l.foldr insertByPriority []

/-- generateSmartAlerts as a pure function of the bookings, the settings
and the current day: build, priority-sort, keep the first 20. -/
def generateSmartAlerts (bookingsData : List Booking)
    (currentSettings : CompanySettings) (today : Int) : List SmartAlert :=
  let alertPrefs := currentSettings.alertSettings.getD defaultAlertSettings
  (sortAlerts (generateAlerts alertPrefs today bookingsData)).take 20

/-! ### Store mutators -/

/-- updateTreasuryBalance: find the treasury, then credit (INCOME) or
debit (EXPENSE) it; silently a no-op when the id names no treasury. -/
def updateTreasuryBalance (s : DataState) (treasuryId : String) (amountJOD : ℚ)
    (ty : TransactionType) : DataState :=
  match s.treasury.find? (fun tr => tr.id == treasuryId) with
  | none => s
  | some t =>
      let newBalance :=
        if ty = TransactionType.INCOME then t.balance + amountJOD
        else t.balance - amountJOD
      { s with treasury := s.treasury.map (fun tr =>
          if tr.id == treasuryId then { tr with balance := newBalance } else tr) }

/-- The newBooking record built by addBooking (the JS
"bookingData.paidAmount || 0" is the identity on rationals since
undefined is outside the model and 0 || 0 = 0). -/
def mkNewBooking (bookingData : BookingData) (now : Nat) : Booking :=
  { id := "B" ++ toString now
    clientName := bookingData.clientName
    clientPhone := bookingData.clientPhone
    fileNo := bookingData.fileNo
    destination := bookingData.destination
    date := bookingData.date
    type := bookingData.type
    status := bookingData.status
    amount := bookingData.amount
    paidAmount := bookingData.paidAmount
    paymentStatus := bookingData.paymentStatus
    payments := bookingData.payments
    passengers := bookingData.passengers
    services := bookingData.services }

/-- addBooking: prepend the new booking to both booking collections, bump
the total, then either credit the existing client with the same name or
append a fresh Individual client carrying the booking amount. -/
def addBooking (s : DataState) (bookingData : BookingData) (now : Nat) :
    DataState :=
  let newBooking := mkNewBooking bookingData now
  let s1 := { s with bookings := newBooking :: s.bookings
                     allBookings := newBooking :: s.allBookings
                     bookingsTotal := s.bookingsTotal + 1 }
  match s.clients.find? (fun c => c.name == newBooking.clientName) with
  | some client =>
      { s1 with clients := s1.clients.map (fun c =>
          if c.id == client.id then
            { c with balance := client.balance + newBooking.amount } else c) }
  | none =>
      { s1 with clients := s1.clients ++
          [{ id := "C" ++ toString now, name := newBooking.clientName,
             type := "Individual", balance := newBooking.amount,
             phone := newBooking.clientPhone, email := "" }] }

/-- updateBooking; the JS Partial merge is modelled as a field-override
function patch. -/
def updateBooking (s : DataState) (id : String) (patch : Booking → Booking) :
    DataState :=
  { s with bookings := s.bookings.map (fun b => if b.id == id then patch b else b)
           allBookings := s.allBookings.map (fun b =>
             if b.id == id then patch b else b) }

def deleteBooking (s : DataState) (id : String) : DataState :=
  { s with bookings := s.bookings.filter (fun b => !(b.id == id))
           allBookings := s.allBookings.filter (fun b => !(b.id == id))
           bookingsTotal := s.bookingsTotal - 1 }

/-- The newTransaction record built by addTransaction. -/
def mkNewTransaction (transactionData : TransactionData) (now : Nat) :
    Transaction :=
  { id := "T" ++ toString now
    description := transactionData.description
    amount := transactionData.amount
    date := transactionData.date
    type := transactionData.type
    category := transactionData.category
    referenceNo := transactionData.referenceNo
    treasuryId := transactionData.treasuryId }

/-- addTransaction; the second argument updateTreasury defaults to true at
the call sites that omit it. -/
def addTransaction (s : DataState) (transactionData : TransactionData)
    (now : Nat) (updateTreasury : Bool) : DataState :=
  let newTransaction := mkNewTransaction transactionData now
  let s1 := { s with transactions := newTransaction :: s.transactions
                     allTransactions := newTransaction :: s.allTransactions
                     transactionsTotal := s.transactionsTotal + 1 }
  if updateTreasury then
    match transactionData.treasuryId with
    | some tid => updateTreasuryBalance s1 tid transactionData.amount transactionData.type
    | none => s1
  else s1

/-- addBookingPayment: recompute the paid total and payment status of the
booking, debit the name-matched client, credit the payment treasury, and
record an INCOME transaction without a second treasury update. -/
def addBookingPayment (s : DataState) (bookingId : String) (payment : Payment)
    (now : Nat) : DataState :=
  match s.allBookings.find? (fun b => b.id == bookingId) with
  | none => s
  | some booking =>
      let updatedPayments := booking.payments ++ [payment]
      let newTotalPaid := updatedPayments.foldl (fun sum p => sum + p.finalAmount) 0
      let newStatus :=
        if booking.amount - 1/100 ≤ newTotalPaid then "Paid"
        else if 0 < newTotalPaid then "Partial" else "Unpaid"
      let s1 := updateBooking s bookingId (fun b =>
        { b with paidAmount := newTotalPaid, paymentStatus := newStatus,
                 payments := updatedPayments })
      let s2 :=
        match s.clients.find? (fun c => c.name == booking.clientName) with
        | some client =>
            { s1 with clients := s1.clients.map (fun c =>
                if c.id == client.id then
                  { c with balance := client.balance - payment.finalAmount }
                else c) }
        | none => s1
      let s3 :=
        match payment.treasuryId with
        | some tid =>
            updateTreasuryBalance s2 tid payment.finalAmount TransactionType.INCOME
        | none => s2
      addTransaction s3
        { description := "دفعة حجز من: " ++ booking.clientName ++ " - ملف " ++
            (match booking.fileNo with
             | some f => if f = "" then booking.id else f
             | none => booking.id)
          amount := payment.finalAmount
          date := payment.date
          type := TransactionType.INCOME
          category := "مقبوضات حجوزات"
          referenceNo := some payment.id
          treasuryId := payment.treasuryId }
        now false

/-- deleteTransaction: reverse the client / agent / treasury balance
effects of the found transaction, then drop it from both transaction
collections and decrement the total. -/
def deleteTransaction (s : DataState) (id : String) : DataState :=
  let afterReverse :=
    match s.allTransactions.find? (fun t => t.id == id) with
    | none => s
    | some txn =>
        let sA : DataState :=
          if (txn.category = "مقبوضات عملاء" ∨ txn.category = "مقبوضات حجوزات") ∧
              txn.type = TransactionType.INCOME then
            match s.clients.find? (fun c : Client => strIncludes txn.description c.name) with
            | some clientMatch =>
                { s with clients := s.clients.map (fun c : Client =>
                    if c.id == clientMatch.id then
                      { c with balance := clientMatch.balance + txn.amount }
                    else c) }
            | none => s
          else s
        let sB : DataState :=
          if txn.category = "دفعات موردين" ∧ txn.type = TransactionType.EXPENSE then
            match s.agents.find? (fun a : Agent => strIncludes txn.description a.name) with
            | some agentMatch =>
                { sA with agents := sA.agents.map (fun a : Agent =>
                    if a.id == agentMatch.id then
                      { a with balance := agentMatch.balance + txn.amount }
                    else a) }
            | none => sA
          else sA
        match txn.treasuryId with
        | some tid =>
            let reverseType :=
              if txn.type = TransactionType.INCOME then TransactionType.EXPENSE
              else TransactionType.INCOME
            updateTreasuryBalance sB tid txn.amount reverseType
        | none => sB
  { afterReverse with
      transactions := afterReverse.transactions.filter (fun t => !(t.id == id))
      allTransactions := afterReverse.allTransactions.filter (fun t => !(t.id == id))
      transactionsTotal := afterReverse.transactionsTotal - 1 }

/-- transferTransaction: move a transaction to another treasury, debiting
the old treasury and crediting the new one (the two ids are distinct past
the guard, so the sequential balance updates agree with the stale closure
reads of the source). -/
def transferTransaction (s : DataState) (transactionId newTreasuryId : String) :
    DataState :=
  match s.allTransactions.find? (fun t => t.id == transactionId) with
  | none => s
  | some transaction =>
      match transaction.treasuryId with
      | none => s
      | some oldTreasuryId =>
          if oldTreasuryId = newTreasuryId then s
          else
            let amount := transaction.amount
            let ty := transaction.type
            let reverseType :=
              if ty = TransactionType.INCOME then TransactionType.EXPENSE
              else TransactionType.INCOME
            let s1 := updateTreasuryBalance s oldTreasuryId amount reverseType
            let s2 := updateTreasuryBalance s1 newTreasuryId amount ty
            { s2 with
                transactions := s2.transactions.map (fun t =>
                  if t.id == transactionId then
                    { t with treasuryId := some newTreasuryId } else t)
                allTransactions := s2.allTransactions.map (fun t =>
                  if t.id == transactionId then
                    { t with treasuryId := some newTreasuryId } else t) }

/-- updateCompanySettings: store the settings and recompute the smart
alerts from the current allBookings and the new settings. -/
def updateCompanySettings (s : DataState) (settings : CompanySettings)
    (today : Int) : DataState :=
  { s with companySettings := settings
           smartAlerts := generateSmartAlerts s.allBookings settings today }

/-! ### fetchBookings (demo mode) -/

/-- The filters argument of fetchBookings; absent (falsy) entries are
none. -/
structure BookingFilters where
  dateFrom : Option Int := none
  dateTo : Option Int := none
  type : Option String := none
  deriving DecidableEq, Repr

/-- The search predicate of fetchBookings: case-insensitive containment in
clientName, fileNo (when present and non-empty) or destination. -/
def matchesBookingSearch (search : String) (b : Booking) : Bool :=
  let s := search.toLower
  strIncludes b.clientName.toLower s ||
  (match b.fileNo with
   | some f => !(f == "") && strIncludes f.toLower s
   | none => false) ||
  strIncludes b.destination.toLower s

/-- The in-memory filtering pipeline of fetchBookings in demo mode. -/
def filterBookings (allBookings : List Booking) (search : String)
    (filters : BookingFilters) : List Booking :=
  let f0 := if search = "" then allBookings
            else allBookings.filter (matchesBookingSearch search)
  let f1 := match filters.dateFrom with
            | some d => f0.filter (fun b => d ≤ b.date)
            | none => f0
  let f2 := match filters.dateTo with
            | some d => f1.filter (fun b => b.date ≤ d)
            | none => f1
  match filters.type with
  | some ty => f2.filter (fun b => b.type == ty)
  | none => f2

/-- ECMAScript index normalization for Array.prototype.slice. -/
def jsNormalizeIndex (len : Nat) (i : Int) : Nat :=
  if i < 0 then ((len : Int) + i).toNat else min i.toNat len

/-- ECMAScript Array.prototype.slice(start, stop). -/
def jsSlice {α : Type} (l : List α) (start stop : Int) : List α :=
  (l.take (jsNormalizeIndex l.length stop)).drop (jsNormalizeIndex l.length start)

def PAGE_SIZE : Int := 25

/-- fetchBookings in demo mode: filter allBookings, publish the filtered
count as bookingsTotal and the page slice as bookings (bookingsPage is
not part of the modelled state). -/
def fetchBookings (s : DataState) (page : Int) (search : String)
    (filters : BookingFilters) : DataState :=
  let filtered := filterBookings s.allBookings search filters
  let fromIdx := (page - 1) * PAGE_SIZE
  { s with bookingsTotal := (filtered.length : Int)
           bookings := jsSlice filtered fromIdx (fromIdx + PAGE_SIZE) }

/-- Sum of all treasury balances. -/
def treasuryTotal (l : List Treasury) : ℚ := (l.map Treasury.balance).sum

/-! ### Concrete sample values -/

/-- Company settings holding the default alert settings. -/
def sampleSettings : CompanySettings :=
  { nameAr := "", nameEn := "", logoText := "", address := "", phone := "",
    email := "", logoUrl := "", logoVisibility := "both",
    alertSettings := some defaultAlertSettings }

/-- The empty store. -/
def emptyState : DataState :=
  { bookings := [], bookingsTotal := 0, allBookings := [], transactions := [],
    transactionsTotal := 0, allTransactions := [], agents := [], clients := [],
    treasury := [], smartAlerts := [], companySettings := sampleSettings }

/-- A CONFIRMED, fully unpaid booking departing on day 0. -/
def sampleBookingData : BookingData :=
  { clientName := "A", clientPhone := "", fileNo := none, destination := "X",
    date := 0, type := "Trip", status := BookingStatus.CONFIRMED, amount := 100,
    paidAmount := 0, paymentStatus := "Unpaid", payments := [], passengers := [],
    services := [] }

/-- A client whose name matches sampleBookingData. -/
def clientW : Client :=
  { id := "C1", name := "A", type := "Individual", balance := 50, phone := "",
    email := "" }

/-- The empty store extended with that one client. -/
def stateW : DataState := { emptyState with clients := [clientW] }

/-- A CONFIRMED unpaid booking travelling on day 1. -/
def bookingW6 : Booking :=
  { id := "B9", clientName := "A", clientPhone := "", fileNo := none,
    destination := "X", date := 1, type := "Trip",
    status := BookingStatus.CONFIRMED, amount := 100, paidAmount := 0,
    paymentStatus := "Unpaid", payments := [], passengers := [],
    services := [] }

/-- Two treasuries and one INCOME transaction in treasury TR1. -/
def treasuryW1 : Treasury := { id := "TR1", name := "Main", balance := 10 }

def treasuryW2 : Treasury := { id := "TR2", name := "Bank", balance := 20 }

def txnW : Transaction :=
  { id := "T1", description := "x", amount := 5, date := 0,
    type := TransactionType.INCOME, category := "misc", referenceNo := none,
    treasuryId := some "TR1" }

def stateW7 : DataState :=
  { emptyState with
      transactions := [txnW]
      allTransactions := [txnW]
      transactionsTotal := 1
      treasury := [treasuryW1, treasuryW2] }

/-- Transaction data targeting treasury TR1. -/
def tdW : TransactionData :=
  { description := "d", amount := 5, date := 0,
    type := TransactionType.INCOME, category := "misc", referenceNo := none,
    treasuryId := some "TR1" }

/-- A booking, a payment into TR1, and a store carrying them for the
payment round. -/
def bookingW1 : Booking :=
  { id := "B1", clientName := "A", clientPhone := "", fileNo := none,
    destination := "X", date := 0, type := "Trip",
    status := BookingStatus.CONFIRMED, amount := 100, paidAmount := 0,
    paymentStatus := "Unpaid", payments := [], passengers := [],
    services := [] }

def paymentW : Payment :=
  { id := "P1", date := 0, finalAmount := 40, treasuryId := some "TR1" }

def stateW1 : DataState :=
  { emptyState with
      bookings := [bookingW1]
      allBookings := [bookingW1]
      bookingsTotal := 1
      clients := [clientW]
      treasury := [treasuryW1, treasuryW2] }

/-! ### Generic list helper lemmas -/

theorem find?_map_comm {α : Type} (p : α → Bool) (f : α → α)
    (hp : ∀ a, p a = true → p (f a) = true) (l : List α) :
    (l.map (fun a => if p a then f a else a)).find? p = (l.find? p).map f := by
  induction l with
  | nil => rfl
  | cons a l ih =>
    by_cases h : p a = true
    · simp [List.find?_cons, h, hp a h]
    · have h' : p a = false := by simpa using h
      simp [List.find?_cons, h', ih]

theorem find?_map_invariant {α : Type} (p : α → Bool) (g : α → α)
    (h1 : ∀ a, p (g a) = p a) (h2 : ∀ a, p a = true → g a = a) (l : List α) :
    (l.map g).find? p = l.find? p := by
  induction l with
  | nil => rfl
  | cons a l ih =>
    by_cases h : p a = true
    · simp [List.find?_cons, h, h1 a, h2 a h]
    · have h' : p a = false := by simpa using h
      have hg : p (g a) = false := by rw [h1 a]; exact h'
      simp [List.find?_cons, h', hg, ih]

theorem map_ite_eq_self_of_false {α : Type} (p : α → Bool) (f : α → α)
    (l : List α) (h : ∀ a ∈ l, p a = false) :
    l.map (fun a => if p a then f a else a) = l := by
  induction l with
  | nil => rfl
  | cons a l ih =>
    have ha := h a (List.mem_cons_self a l)
    simp only [List.map_cons, ha, ite_false, Bool.false_eq_true, if_neg]
    rw [ih (fun b hb => h b (List.mem_cons_of_mem a hb))]

/-! ### Treasury balance sum -/

theorem treasuryTotal_update (l : List Treasury) (tid : String) (nb : ℚ)
    (t : Treasury) (hnd : (l.map Treasury.id).Nodup)
    (hf : l.find? (fun tr => tr.id == tid) = some t) :
    treasuryTotal (l.map (fun tr =>
        if tr.id == tid then { tr with balance := nb } else tr))
      = treasuryTotal l - t.balance + nb := by
  induction l with
  | nil => simp at hf
  | cons a l ih =>
    rw [List.map_cons, List.nodup_cons] at hnd
    by_cases h : (a.id == tid) = true
    · have ha : a.id = tid := by simpa using h
      have hta : t = a := by
        rw [List.find?_cons, h] at hf
        exact (Option.some_inj.mp hf).symm
      have htail : ∀ b ∈ l, (b.id == tid) = false := by
        intro b hb
        have hne : b.id ≠ a.id := by
          intro he
          exact hnd.1 (he ▸ List.mem_map_of_mem Treasury.id hb)
        have hne' : b.id ≠ tid := ha ▸ hne
        simp [hne']
      rw [List.map_cons, if_pos h, map_ite_eq_self_of_false _ _ _ htail]
      subst hta
      simp [treasuryTotal]
      ring
    · have h' : (a.id == tid) = false := by simpa using h
      rw [List.find?_cons, h'] at hf
      rw [List.map_cons, if_neg (by simp [h'])]
      have := ih hnd.2 hf
      simp only [treasuryTotal, List.map_cons, List.sum_cons] at this ⊢
      rw [this]
      ring

theorem map_treasury_id_update (l : List Treasury) (tid : String) (nb : ℚ) :
    (l.map (fun tr =>
        if tr.id == tid then { tr with balance := nb } else tr)).map Treasury.id
      = l.map Treasury.id := by
  induction l with
  | nil => rfl
  | cons a l ih =>
    by_cases h : (a.id == tid) = true
    · simp only [List.map_cons, if_pos h, ih]
    · simp only [List.map_cons, if_neg h, ih]

/-! ### Sortedness of the alert sort -/

theorem mem_insertByPriority (x a : SmartAlert) (l : List SmartAlert) :
    x ∈ insertByPriority a l ↔ x = a ∨ x ∈ l := by
  induction l with
  | nil => simp [insertByPriority]
  | cons b l ih =>
    by_cases h : alertPriority a.type < alertPriority b.type
    · simp [insertByPriority, h]
    · simp [insertByPriority, h, ih]
      tauto

theorem pairwise_insertByPriority (a : SmartAlert) (l : List SmartAlert)
    (h : l.Pairwise (fun x y => alertPriority x.type ≤ alertPriority y.type)) :
    (insertByPriority a l).Pairwise
      (fun x y => alertPriority x.type ≤ alertPriority y.type) := by
  induction l with
  | nil => simp [insertByPriority]
  | cons b l ih =>
    rw [List.pairwise_cons] at h
    by_cases hc : alertPriority a.type < alertPriority b.type
    · rw [insertByPriority, if_pos hc, List.pairwise_cons]
      constructor
      · intro x hx
        rcases List.mem_cons.mp hx with hx | hx
        · exact hx ▸ le_of_lt hc
        · exact le_trans (le_of_lt hc) (h.1 x hx)
      · rw [List.pairwise_cons]
        exact ⟨h.1, h.2⟩
    · rw [insertByPriority, if_neg hc, List.pairwise_cons]
      constructor
      · intro x hx
        rcases (mem_insertByPriority x a l).mp hx with hx | hx
        · exact hx ▸ le_of_not_lt hc
        · exact h.1 x hx
      · exact ih h.2

theorem pairwise_sortAlerts (l : List SmartAlert) :
    (sortAlerts l).Pairwise
      (fun x y => alertPriority x.type ≤ alertPriority y.type) := by
  induction l with
  | nil => simp [sortAlerts]
  | cons a l ih => exact pairwise_insertByPriority a _ ih

/-! ### smartAlerts is untouched by the CRUD mutators -/

theorem updateTreasuryBalance_smartAlerts (s : DataState) (tid : String)
    (a : ℚ) (ty : TransactionType) :
    (updateTreasuryBalance s tid a ty).smartAlerts = s.smartAlerts := by
  unfold updateTreasuryBalance
  split <;> rfl

theorem addTransaction_smartAlerts (s : DataState) (td : TransactionData)
    (now : Nat) (u : Bool) :
    (addTransaction s td now u).smartAlerts = s.smartAlerts := by
  unfold addTransaction
  split
  · split
    · rw [updateTreasuryBalance_smartAlerts]
    · rfl
  · rfl

theorem addBookingPayment_smartAlerts (s : DataState) (bookingId : String)
    (payment : Payment) (now : Nat) :
    (addBookingPayment s bookingId payment now).smartAlerts = s.smartAlerts := by
  unfold addBookingPayment
  split
  · rfl
  · rw [addTransaction_smartAlerts]
    split
    · rw [updateTreasuryBalance_smartAlerts]
      split <;> rfl
    · split <;> rfl

theorem deleteTransaction_smartAlerts (s : DataState) (id : String) :
    (deleteTransaction s id).smartAlerts = s.smartAlerts := by
  simp only [deleteTransaction]
  split
  · rfl
  · repeat' split
    all_goals simp [updateTreasuryBalance_smartAlerts]

theorem transferTransaction_smartAlerts (s : DataState)
    (transactionId newTreasuryId : String) :
    (transferTransaction s transactionId newTreasuryId).smartAlerts
      = s.smartAlerts := by
  unfold transferTransaction
  split
  · rfl
  · split
    · rfl
    · split
      · rfl
      · show (updateTreasuryBalance (updateTreasuryBalance _ _ _ _) _ _ _).smartAlerts = _
        rw [updateTreasuryBalance_smartAlerts, updateTreasuryBalance_smartAlerts]

/-- After a balance-overwriting id-keyed map update, the first client
with the given id carries the new balance. -/
theorem clients_find_map_balance (l : List Client) (cid : String) (nb : ℚ)
    (h : (l.find? (fun c => c.id == cid)).isSome) :
    ((l.map (fun c => if c.id == cid then { c with balance := nb } else c)).find?
        (fun c => c.id == cid)).map Client.balance = some nb := by
  induction l with
  | nil => simp at h
  | cons a l ih =>
    rw [List.map_cons]
    by_cases ha : (a.id == cid) = true
    · rw [if_pos ha, List.find?_cons_of_pos (p := fun c : Client => c.id == cid)
        (a := { a with balance := nb }) _
        (show (({ a with balance := nb } : Client).id == cid) = true from ha)]
      rfl
    · rw [List.find?_cons_of_neg (p := fun c : Client => c.id == cid) _ ha] at h
      rw [if_neg ha, List.find?_cons_of_neg (p := fun c : Client => c.id == cid) _ ha]
      exact ih h

/-! ### Claim theorems -/

/-- C5: the output of generateSmartAlerts is priority-sorted: along the
resulting list the priority never decreases, so every critical alert
appears before every warning alert, and every warning before every info
alert. -/
theorem generateSmartAlerts_prioritized (bookingsData : List Booking)
    (currentSettings : CompanySettings) (today : Int) :
    (generateSmartAlerts bookingsData currentSettings today).Pairwise
      (fun a b => alertPriority a.type ≤ alertPriority b.type) := by
  unfold generateSmartAlerts
  exact (pairwise_sortAlerts _).sublist (List.take_sublist 20 _)

/-- C8: generateSmartAlerts keeps only the first 20 alerts after the
priority sort, so the smartAlerts list never holds more than 20 alerts. -/
theorem generateSmartAlerts_length_le_twenty (bookingsData : List Booking)
    (currentSettings : CompanySettings) (today : Int) :
    (generateSmartAlerts bookingsData currentSettings today).length ≤ 20 := by
  unfold generateSmartAlerts
  exact List.length_take_le 20 (sortAlerts (generateAlerts
    (currentSettings.alertSettings.getD defaultAlertSettings) today bookingsData))

/-- C9: deleteBooking always decrements bookingsTotal by exactly one, even
when no booking carries the given id (in which case both booking
collections are unchanged, so the counter can drift below the stored
count and below zero), and it never touches clients, agents or
treasuries. -/
theorem deleteBooking_spec (s : DataState) (id : String) :
    ((deleteBooking s id).bookingsTotal = s.bookingsTotal - 1) ∧
    ((deleteBooking s id).clients = s.clients) ∧
    ((deleteBooking s id).agents = s.agents) ∧
    ((deleteBooking s id).treasury = s.treasury) ∧
    ((∀ b ∈ s.bookings, b.id ≠ id) → (deleteBooking s id).bookings = s.bookings) ∧
    ((∀ b ∈ s.allBookings, b.id ≠ id) →
      (deleteBooking s id).allBookings = s.allBookings) := by
  refine ⟨rfl, rfl, rfl, rfl, ?_, ?_⟩
  · intro h
    show s.bookings.filter (fun b => !(b.id == id)) = s.bookings
    rw [List.filter_eq_self]
    intro b hb
    simpa using h b hb
  · intro h
    show s.allBookings.filter (fun b => !(b.id == id)) = s.allBookings
    rw [List.filter_eq_self]
    intro b hb
    simpa using h b hb

/-- C9 witness: a concrete store with one booking, deleting an id that
matches nothing. -/
theorem deleteBooking_spec_witness :
    (∀ b ∈ (DataState.mk
        [{ id := "B1", clientName := "x", clientPhone := "", fileNo := none,
           destination := "d", date := 0, type := "t",
           status := BookingStatus.PENDING, amount := 1, paidAmount := 0,
           paymentStatus := "Unpaid", payments := [], passengers := [],
           services := [] }] 1 [] [] 0 [] [] [] [] []
        (CompanySettings.mk "" "" "" "" "" "" "" "both" none)).bookings,
      b.id ≠ "Z") ∧
    (deleteBooking (DataState.mk
        [{ id := "B1", clientName := "x", clientPhone := "", fileNo := none,
           destination := "d", date := 0, type := "t",
           status := BookingStatus.PENDING, amount := 1, paidAmount := 0,
           paymentStatus := "Unpaid", payments := [], passengers := [],
           services := [] }] 1 [] [] 0 [] [] [] [] []
        (CompanySettings.mk "" "" "" "" "" "" "" "both" none)) "Z").bookings
      = (DataState.mk
        [{ id := "B1", clientName := "x", clientPhone := "", fileNo := none,
           destination := "d", date := 0, type := "t",
           status := BookingStatus.PENDING, amount := 1, paidAmount := 0,
           paymentStatus := "Unpaid", payments := [], passengers := [],
           services := [] }] 1 [] [] 0 [] [] [] [] []
        (CompanySettings.mk "" "" "" "" "" "" "" "both" none)).bookings :=
  ⟨by decide, (deleteBooking_spec _ "Z").2.2.2.2.1 (by decide)⟩

/-- C4 counterexample: adding a CONFIRMED fully-unpaid booking departing
today to the empty store leaves smartAlerts empty, while the alert
generator applied to the then-current bookings and settings yields a
critical financial alert, so the claimed recomputation invariant fails at
this input. -/
theorem addBooking_does_not_recompute_alerts :
    ¬ ((addBooking emptyState sampleBookingData 0).smartAlerts
        = generateSmartAlerts (addBooking emptyState sampleBookingData 0).allBookings
            (addBooking emptyState sampleBookingData 0).companySettings 0) := by
  have h1 : (addBooking emptyState sampleBookingData 0).smartAlerts = [] := rfl
  have hAll : (addBooking emptyState sampleBookingData 0).allBookings
      = [mkNewBooking sampleBookingData 0] := rfl
  have hCs : (addBooking emptyState sampleBookingData 0).companySettings
      = sampleSettings := rfl
  rw [h1, hAll, hCs]
  have h2 : generateSmartAlerts [mkNewBooking sampleBookingData 0] sampleSettings 0
      = [{ id := "fin-urgent-B0", title := "تنبيه مالي عاجل",
           type := AlertType.critical, category := "Finance",
           linkPage := NavPage.BOOKINGS }] := by
    norm_num [generateSmartAlerts, generateAlerts, bookingAlerts, finAlertsOf,
      ppAlertsOf, serviceAlertsOf, sortAlerts, insertByPriority, mkNewBooking,
      sampleBookingData, sampleSettings, defaultAlertSettings, orDays]
    rfl
  rw [h2]
  simp

/-- C4 (amended): the derived smartAlerts list is NOT recomputed by the
booking and transaction mutators; each of them leaves smartAlerts
unchanged, and among the modelled store operations only
updateCompanySettings recomputes it, from the current allBookings and the
new settings. -/
theorem smartAlerts_recomputation (s : DataState) (d : BookingData)
    (bid ntid : String) (patch : Booking → Booking) (p : Payment)
    (td : TransactionData) (now : Nat) (u : Bool) (page : Int)
    (search : String) (filters : BookingFilters) (cs : CompanySettings)
    (today : Int) :
    ((addBooking s d now).smartAlerts = s.smartAlerts) ∧
    ((updateBooking s bid patch).smartAlerts = s.smartAlerts) ∧
    ((deleteBooking s bid).smartAlerts = s.smartAlerts) ∧
    ((addBookingPayment s bid p now).smartAlerts = s.smartAlerts) ∧
    ((addTransaction s td now u).smartAlerts = s.smartAlerts) ∧
    ((deleteTransaction s bid).smartAlerts = s.smartAlerts) ∧
    ((transferTransaction s bid ntid).smartAlerts = s.smartAlerts) ∧
    ((fetchBookings s page search filters).smartAlerts = s.smartAlerts) ∧
    ((updateCompanySettings s cs today).smartAlerts
        = generateSmartAlerts s.allBookings cs today) := by
  refine ⟨?_, rfl, rfl, addBookingPayment_smartAlerts s bid p now,
    addTransaction_smartAlerts s td now u, deleteTransaction_smartAlerts s bid,
    transferTransaction_smartAlerts s bid ntid, rfl, rfl⟩
  simp only [addBooking]
  split <;> rfl

/-- C2: addBooking prepends the new booking to both booking collections
and bumps bookingsTotal by one; when a client with the booked client name
already exists its balance grows by the booking amount and no client is
added, otherwise a fresh Individual client carrying the booking amount as
balance is appended. -/
theorem addBooking_spec (s : DataState) (d : BookingData) (now : Nat) :
    ((addBooking s d now).bookings = mkNewBooking d now :: s.bookings) ∧
    ((addBooking s d now).allBookings = mkNewBooking d now :: s.allBookings) ∧
    ((addBooking s d now).bookingsTotal = s.bookingsTotal + 1) ∧
    (∀ client, s.clients.find? (fun c => c.name == d.clientName) = some client →
      (addBooking s d now).clients.length = s.clients.length ∧
      ((addBooking s d now).clients.find? (fun c => c.id == client.id)).map
          Client.balance
        = some (client.balance + d.amount)) ∧
    (s.clients.find? (fun c => c.name == d.clientName) = none →
      (addBooking s d now).clients = s.clients ++
        [{ id := "C" ++ toString now, name := d.clientName, type := "Individual",
           balance := d.amount, phone := d.clientPhone, email := "" }]) := by
  refine ⟨?_, ?_, ?_, ?_, ?_⟩
  · simp only [addBooking]
    split <;> rfl
  · simp only [addBooking]
    split <;> rfl
  · simp only [addBooking]
    split <;> rfl
  · intro client hc
    have hmem : client ∈ s.clients := List.mem_of_find?_eq_some hc
    simp only [addBooking, mkNewBooking, hc]
    constructor
    · exact List.length_map _ _
    · apply clients_find_map_balance
      rw [List.find?_isSome]
      exact ⟨client, hmem, by simp⟩
  · intro hc
    simp only [addBooking, mkNewBooking, hc]

/-- C2 witness: adding sampleBookingData to a store that already holds a
client named A credits that client and creates no new client. -/
theorem addBooking_spec_witness :
    stateW.clients.find? (fun c => c.name == sampleBookingData.clientName)
      = some clientW ∧
    ((addBooking stateW sampleBookingData 5).clients.length
        = stateW.clients.length ∧
      ((addBooking stateW sampleBookingData 5).clients.find?
          (fun c => c.id == clientW.id)).map Client.balance
        = some (clientW.balance + sampleBookingData.amount)) :=
  ⟨rfl, (addBooking_spec stateW sampleBookingData 5).2.2.2.1 clientW rfl⟩

/-! ### jsSlice arithmetic -/

theorem jsNormalizeIndex_le_add (len : Nat) (i : Int) :
    jsNormalizeIndex len (i + 25) ≤ jsNormalizeIndex len i + 25 := by
  unfold jsNormalizeIndex
  split_ifs <;> omega

theorem jsSlice_length_le {α : Type} (l : List α) (start : Int) :
    (jsSlice l start (start + 25)).length ≤ 25 := by
  unfold jsSlice
  rw [List.length_drop, List.length_take]
  have h := jsNormalizeIndex_le_add l.length start
  omega

theorem jsSlice_nonneg_eq {α : Type} (l : List α) (start : Int) (h : 0 ≤ start) :
    jsSlice l start (start + 25) = (l.drop start.toNat).take 25 := by
  unfold jsSlice jsNormalizeIndex
  rw [if_neg (by omega), if_neg (by omega), List.drop_take]
  have he : (start + 25).toNat = start.toNat + 25 := by omega
  by_cases hs : start.toNat ≤ l.length
  · have h1 : min start.toNat l.length = start.toNat := by omega
    rw [h1, List.take_eq_take]
    simp only [List.length_drop]
    omega
  · have h1 : min start.toNat l.length = l.length := by omega
    rw [h1, List.drop_eq_nil_of_le (le_refl l.length),
      List.drop_eq_nil_of_le (le_of_not_le hs)]
    simp

/-- C10: in demo mode fetchBookings never publishes more than 25 bookings,
sets bookingsTotal to the full filtered count, leaves allBookings intact,
and for page numbers from 1 the visible page is exactly the slice
[(page-1)*25, page*25) of the filtered list. -/
theorem fetchBookings_spec (s : DataState) (page : Int) (search : String)
    (filters : BookingFilters) :
    ((fetchBookings s page search filters).bookings.length ≤ 25) ∧
    ((fetchBookings s page search filters).bookingsTotal
        = ((filterBookings s.allBookings search filters).length : Int)) ∧
    ((fetchBookings s page search filters).allBookings = s.allBookings) ∧
    (1 ≤ page →
      (fetchBookings s page search filters).bookings
        = ((filterBookings s.allBookings search filters).drop
            (((page - 1) * 25).toNat)).take 25) := by
  refine ⟨?_, rfl, rfl, ?_⟩
  · exact jsSlice_length_le (filterBookings s.allBookings search filters)
      ((page - 1) * PAGE_SIZE)
  · intro hp
    exact jsSlice_nonneg_eq (filterBookings s.allBookings search filters)
      ((page - 1) * 25) (by omega)

/-- C10 witness: page 1 of the empty store. -/
theorem fetchBookings_spec_witness :
    (1 : Int) ≤ 1 ∧
    (fetchBookings emptyState 1 "" {}).bookings
      = ((filterBookings emptyState.allBookings "" {}).drop
          (((1 - 1) * 25 : Int)).toNat).take 25 :=
  ⟨by omega, (fetchBookings_spec emptyState 1 "" {}).2.2.2 (by omega)⟩

/-! ### Alert category lemmas -/

theorem finAlertsOf_eq_nil_of_le (prefs : AlertSettings) (today : Int)
    (b : Booking) (hrem : b.amount - b.paidAmount ≤ 1/100) :
    finAlertsOf prefs today b = [] := by
  have hnlt : ¬ ((1 : ℚ)/100 < b.amount - b.paidAmount) := not_lt.mpr hrem
  simp only [finAlertsOf]
  split_ifs with h1 h2 h3 h4
  · exact absurd h2.2.2.1 hnlt
  · exact absurd h3.1 hnlt
  · rfl
  · rfl
  · rfl

theorem ppAlertsOf_category (prefs : AlertSettings) (today : Int) (b : Booking)
    (a : SmartAlert) (ha : a ∈ ppAlertsOf prefs today b) :
    a.category = "Booking" := by
  simp only [ppAlertsOf] at ha
  split_ifs at ha
  · rw [List.mem_singleton] at ha
    rw [ha]
  · exact absurd ha (List.not_mem_nil a)
  · exact absurd ha (List.not_mem_nil a)

theorem serviceAlertsOf_category (prefs : AlertSettings) (today : Int)
    (b : Booking) (sv : Service) (a : SmartAlert)
    (ha : a ∈ serviceAlertsOf prefs today b sv) :
    a.category = "Flight" ∨ a.category = "Booking" := by
  simp only [serviceAlertsOf] at ha
  rcases List.mem_append.mp ha with h | h
  · left
    by_cases hc : prefs.enableFlightAlerts ∧ sv.type = "Flight" ∧
        sv.flightDate.isSome ∧ b.status = BookingStatus.CONFIRMED
    · rw [if_pos hc] at h
      cases hfd : sv.flightDate with
      | some fd =>
          rw [hfd] at h
          dsimp only at h
          split_ifs at h
          · rw [List.mem_singleton] at h
            rw [h]
          · exact absurd h (List.not_mem_nil a)
      | none =>
          rw [hfd] at h
          exact absurd h (List.not_mem_nil a)
    · rw [if_neg hc] at h
      exact absurd h (List.not_mem_nil a)
  · right
    by_cases hc : prefs.enableHotelAlerts ∧ sv.type = "Hotel" ∧
        sv.checkIn.isSome ∧ b.status = BookingStatus.CONFIRMED
    · rw [if_pos hc] at h
      cases hci : sv.checkIn with
      | some ci =>
          rw [hci] at h
          dsimp only at h
          split_ifs at h
          · rw [List.mem_singleton] at h
            rw [h]
          · exact absurd h (List.not_mem_nil a)
      | none =>
          rw [hci] at h
          exact absurd h (List.not_mem_nil a)
    · rw [if_neg hc] at h
      exact absurd h (List.not_mem_nil a)

/-- C6: for a CONFIRMED booking travelling between today and today plus
the configured financialAlertDays, with financial alerts enabled: if more
than 0.01 is outstanding the generator emits the critical Finance alert
with id fin-urgent-<bookingId>; if at most 0.01 is outstanding the
booking contributes no Finance alert at all. -/
theorem financial_urgent_alert (bookingsData : List Booking)
    (currentSettings : CompanySettings) (prefs : AlertSettings) (today : Int)
    (b : Booking)
    (hps : currentSettings.alertSettings = some prefs)
    (hen : prefs.enableFinancialAlerts = true)
    (hmem : b ∈ bookingsData)
    (hst : b.status = BookingStatus.CONFIRMED)
    (hup : today ≤ b.date)
    (hwin : b.date ≤ today + prefs.financialAlertDays) :
    ((1 : ℚ)/100 < b.amount - b.paidAmount →
      ({ id := "fin-urgent-" ++ b.id, title := "تنبيه مالي عاجل",
         type := AlertType.critical, category := "Finance",
         linkPage := NavPage.BOOKINGS } : SmartAlert)
        ∈ generateAlerts (currentSettings.alertSettings.getD defaultAlertSettings)
            today bookingsData) ∧
    (b.amount - b.paidAmount ≤ 1/100 →
      ∀ a ∈ bookingAlerts (currentSettings.alertSettings.getD defaultAlertSettings)
          today b, a.category ≠ "Finance") := by
  rw [hps]
  simp only [Option.getD_some]
  constructor
  · intro hrem
    simp only [generateAlerts]
    rw [List.mem_flatMap]
    refine ⟨b, hmem, ?_⟩
    simp only [bookingAlerts]
    apply List.mem_append_left
    apply List.mem_append_left
    have hthr : b.date ≤ today + orDays prefs.financialAlertDays 3 := by
      unfold orDays
      split_ifs with h0 <;> omega
    simp only [finAlertsOf]
    rw [if_pos hen, if_pos ⟨hup, hthr, hrem, hst⟩]
    exact List.mem_singleton_self _
  · intro hrem a ha
    simp only [bookingAlerts] at ha
    rcases List.mem_append.mp ha with h | h
    · rcases List.mem_append.mp h with h | h
      · rw [finAlertsOf_eq_nil_of_le prefs today b hrem] at h
        exact absurd h (List.not_mem_nil a)
      · rw [ppAlertsOf_category prefs today b a h]
        decide
    · obtain ⟨sv, hsv, h⟩ := List.mem_flatMap.mp h
      rcases serviceAlertsOf_category prefs today b sv a h with h2 | h2 <;>
        rw [h2] <;> decide

/-- C6 witness: the unpaid CONFIRMED booking travelling tomorrow with the
default thresholds yields the urgent alert. -/
theorem financial_urgent_alert_witness :
    ((1 : ℚ)/100 < bookingW6.amount - bookingW6.paidAmount) ∧
    ({ id := "fin-urgent-" ++ bookingW6.id, title := "تنبيه مالي عاجل",
       type := AlertType.critical, category := "Finance",
       linkPage := NavPage.BOOKINGS } : SmartAlert)
      ∈ generateAlerts (sampleSettings.alertSettings.getD defaultAlertSettings)
          0 [bookingW6] :=
  ⟨by norm_num [bookingW6],
    (financial_urgent_alert [bookingW6] sampleSettings defaultAlertSettings 0
      bookingW6 rfl rfl (List.mem_singleton_self bookingW6) rfl (by norm_num [bookingW6])
      (by norm_num [bookingW6, defaultAlertSettings])).1
      (by norm_num [bookingW6])⟩

/-! ### Keyed map-update lemmas for treasuries and transactions -/

theorem treasury_find_map (l : List Treasury) (tid : String) (nb : ℚ)
    (t : Treasury) (hf : l.find? (fun tr => tr.id == tid) = some t) :
    (l.map (fun tr => if tr.id == tid then { tr with balance := nb } else tr)).find?
      (fun tr => tr.id == tid) = some { t with balance := nb } := by
  induction l with
  | nil => simp at hf
  | cons a l ih =>
    rw [List.map_cons]
    by_cases ha : (a.id == tid) = true
    · rw [List.find?_cons_of_pos (p := fun tr : Treasury => tr.id == tid) _ ha] at hf
      injection hf with hf
      subst hf
      rw [if_pos ha, List.find?_cons_of_pos (p := fun tr : Treasury => tr.id == tid)
        (a := { a with balance := nb }) _ ha]
    · rw [List.find?_cons_of_neg (p := fun tr : Treasury => tr.id == tid) _ ha] at hf
      rw [if_neg ha, List.find?_cons_of_neg (p := fun tr : Treasury => tr.id == tid) _ ha]
      exact ih hf

theorem treasury_find_map_ne (l : List Treasury) (tid tid2 : String) (nb : ℚ)
    (hne : tid ≠ tid2) :
    (l.map (fun tr => if tr.id == tid then { tr with balance := nb } else tr)).find?
      (fun tr => tr.id == tid2) = l.find? (fun tr => tr.id == tid2) := by
  induction l with
  | nil => rfl
  | cons a l ih =>
    rw [List.map_cons]
    by_cases ha : (a.id == tid) = true
    · have haeq : a.id = tid := by simpa using ha
      have ha2 : ¬ ((a.id == tid2) = true) := by
        simp only [beq_iff_eq, haeq]
        exact hne
      rw [if_pos ha,
        List.find?_cons_of_neg (p := fun tr : Treasury => tr.id == tid2)
          (a := { a with balance := nb }) _ ha2,
        List.find?_cons_of_neg (p := fun tr : Treasury => tr.id == tid2) _ ha2, ih]
    · rw [if_neg ha]
      by_cases ha2 : (a.id == tid2) = true
      · rw [List.find?_cons_of_pos (p := fun tr : Treasury => tr.id == tid2) _ ha2,
          List.find?_cons_of_pos (p := fun tr : Treasury => tr.id == tid2) _ ha2]
      · rw [List.find?_cons_of_neg (p := fun tr : Treasury => tr.id == tid2) _ ha2,
          List.find?_cons_of_neg (p := fun tr : Treasury => tr.id == tid2) _ ha2, ih]

theorem transactions_find_map (l : List Transaction) (id2 : String)
    (nt : Option String) (txn : Transaction)
    (hf : l.find? (fun t => t.id == id2) = some txn) :
    (l.map (fun t => if t.id == id2 then { t with treasuryId := nt } else t)).find?
      (fun t => t.id == id2) = some { txn with treasuryId := nt } := by
  induction l with
  | nil => simp at hf
  | cons a l ih =>
    rw [List.map_cons]
    by_cases ha : (a.id == id2) = true
    · rw [List.find?_cons_of_pos (p := fun t : Transaction => t.id == id2) _ ha] at hf
      injection hf with hf
      subst hf
      rw [if_pos ha, List.find?_cons_of_pos (p := fun t : Transaction => t.id == id2)
        (a := { a with treasuryId := nt }) _ ha]
    · rw [List.find?_cons_of_neg (p := fun t : Transaction => t.id == id2) _ ha] at hf
      rw [if_neg ha, List.find?_cons_of_neg (p := fun t : Transaction => t.id == id2) _ ha]
      exact ih hf

/-! ### updateTreasuryBalance projections -/

theorem updateTreasuryBalance_allTransactions (s : DataState) (tid : String)
    (a : ℚ) (ty : TransactionType) :
    (updateTreasuryBalance s tid a ty).allTransactions = s.allTransactions := by
  unfold updateTreasuryBalance
  split <;> rfl

theorem updateTreasuryBalance_transactions (s : DataState) (tid : String)
    (a : ℚ) (ty : TransactionType) :
    (updateTreasuryBalance s tid a ty).transactions = s.transactions := by
  unfold updateTreasuryBalance
  split <;> rfl

theorem updateTreasuryBalance_clients (s : DataState) (tid : String)
    (a : ℚ) (ty : TransactionType) :
    (updateTreasuryBalance s tid a ty).clients = s.clients := by
  unfold updateTreasuryBalance
  split <;> rfl

theorem updateTreasuryBalance_bookings (s : DataState) (tid : String)
    (a : ℚ) (ty : TransactionType) :
    (updateTreasuryBalance s tid a ty).bookings = s.bookings ∧
    (updateTreasuryBalance s tid a ty).allBookings = s.allBookings := by
  unfold updateTreasuryBalance
  constructor <;> (split <;> rfl)

theorem updateTreasuryBalance_treasury_of_found (s : DataState) (tid : String)
    (a : ℚ) (ty : TransactionType) (t : Treasury)
    (hf : s.treasury.find? (fun tr => tr.id == tid) = some t) :
    (updateTreasuryBalance s tid a ty).treasury
      = s.treasury.map (fun tr => if tr.id == tid then
          { tr with balance :=
              if ty = TransactionType.INCOME then t.balance + a else t.balance - a }
          else tr) := by
  unfold updateTreasuryBalance
  rw [hf]

/-- C7: transferTransaction on a transaction held by an existing treasury,
towards a distinct existing treasury (treasury ids being unique), keeps
the sum of all treasury balances unchanged and rewrites only the
transaction's treasuryId, leaving its amount, type, date and description
as they were; when the transaction is missing, carries no treasuryId, or
already sits in the target treasury, the whole state is unchanged. -/
theorem transferTransaction_spec (s : DataState) (transactionId newTreasuryId : String) :
    (∀ txn oldTid tOld tNew,
      s.allTransactions.find? (fun t => t.id == transactionId) = some txn →
      txn.treasuryId = some oldTid →
      oldTid ≠ newTreasuryId →
      s.treasury.find? (fun x => x.id == oldTid) = some tOld →
      s.treasury.find? (fun x => x.id == newTreasuryId) = some tNew →
      (s.treasury.map Treasury.id).Nodup →
      (treasuryTotal (transferTransaction s transactionId newTreasuryId).treasury
          = treasuryTotal s.treasury ∧
        (transferTransaction s transactionId newTreasuryId).allTransactions.find?
            (fun t => t.id == transactionId)
          = some { txn with treasuryId := some newTreasuryId })) ∧
    (∀ txn, s.allTransactions.find? (fun t => t.id == transactionId) = some txn →
      txn.treasuryId = none →
      transferTransaction s transactionId newTreasuryId = s) ∧
    (∀ txn, s.allTransactions.find? (fun t => t.id == transactionId) = some txn →
      txn.treasuryId = some newTreasuryId →
      transferTransaction s transactionId newTreasuryId = s) ∧
    (s.allTransactions.find? (fun t => t.id == transactionId) = none →
      transferTransaction s transactionId newTreasuryId = s) := by
  refine ⟨?_, ?_, ?_, ?_⟩
  · intro txn oldTid tOld tNew hf ht hne hfo hfn hnd
    have hTre : (transferTransaction s transactionId newTreasuryId).treasury
        = (updateTreasuryBalance (updateTreasuryBalance s oldTid txn.amount
            (if txn.type = TransactionType.INCOME then TransactionType.EXPENSE
             else TransactionType.INCOME)) newTreasuryId txn.amount txn.type).treasury := by
      simp only [transferTransaction, hf, ht]
      rw [if_neg hne]
    have hTxns : (transferTransaction s transactionId newTreasuryId).allTransactions
        = ((updateTreasuryBalance (updateTreasuryBalance s oldTid txn.amount
            (if txn.type = TransactionType.INCOME then TransactionType.EXPENSE
             else TransactionType.INCOME)) newTreasuryId txn.amount
            txn.type).allTransactions).map (fun t =>
              if t.id == transactionId then { t with treasuryId := some newTreasuryId }
              else t) := by
      simp only [transferTransaction, hf, ht]
      rw [if_neg hne]
    have hs1tre : (updateTreasuryBalance s oldTid txn.amount
        (if txn.type = TransactionType.INCOME then TransactionType.EXPENSE
         else TransactionType.INCOME)).treasury
        = s.treasury.map (fun tr => if tr.id == oldTid then
            { tr with balance :=
                if (if txn.type = TransactionType.INCOME then TransactionType.EXPENSE
                    else TransactionType.INCOME) = TransactionType.INCOME
                then tOld.balance + txn.amount else tOld.balance - txn.amount }
            else tr) :=
      updateTreasuryBalance_treasury_of_found s oldTid txn.amount _ tOld hfo
    have hfind1 : (updateTreasuryBalance s oldTid txn.amount
        (if txn.type = TransactionType.INCOME then TransactionType.EXPENSE
         else TransactionType.INCOME)).treasury.find? (fun x => x.id == newTreasuryId)
        = some tNew := by
      rw [hs1tre, treasury_find_map_ne _ _ _ _ hne, hfn]
    have hs2tre : (updateTreasuryBalance (updateTreasuryBalance s oldTid txn.amount
        (if txn.type = TransactionType.INCOME then TransactionType.EXPENSE
         else TransactionType.INCOME)) newTreasuryId txn.amount txn.type).treasury
        = (updateTreasuryBalance s oldTid txn.amount
            (if txn.type = TransactionType.INCOME then TransactionType.EXPENSE
             else TransactionType.INCOME)).treasury.map (fun tr =>
              if tr.id == newTreasuryId then
                { tr with balance :=
                    if txn.type = TransactionType.INCOME then tNew.balance + txn.amount
                    else tNew.balance - txn.amount }
              else tr) :=
      updateTreasuryBalance_treasury_of_found _ newTreasuryId txn.amount txn.type
        tNew hfind1
    constructor
    · rw [hTre, hs2tre, hs1tre]
      have hnd1 : ((s.treasury.map (fun tr => if tr.id == oldTid then
          { tr with balance :=
              if (if txn.type = TransactionType.INCOME then TransactionType.EXPENSE
                  else TransactionType.INCOME) = TransactionType.INCOME
              then tOld.balance + txn.amount else tOld.balance - txn.amount }
          else tr)).map Treasury.id).Nodup := by
        rw [map_treasury_id_update]
        exact hnd
      have hf1 : (s.treasury.map (fun tr => if tr.id == oldTid then
          { tr with balance :=
              if (if txn.type = TransactionType.INCOME then TransactionType.EXPENSE
                  else TransactionType.INCOME) = TransactionType.INCOME
              then tOld.balance + txn.amount else tOld.balance - txn.amount }
          else tr)).find? (fun tr => tr.id == newTreasuryId) = some tNew := by
        rw [treasury_find_map_ne _ _ _ _ hne]
        exact hfn
      rw [treasuryTotal_update _ newTreasuryId _ tNew hnd1 hf1,
        treasuryTotal_update _ oldTid _ tOld hnd hfo]
      cases htyp : txn.type <;> simp <;> ring
    · rw [hTxns, updateTreasuryBalance_allTransactions,
        updateTreasuryBalance_allTransactions]
      exact transactions_find_map _ _ _ _ hf
  · intro txn hf ht
    simp [transferTransaction, hf, ht]
  · intro txn hf ht
    simp [transferTransaction, hf, ht]
  · intro hf
    simp [transferTransaction, hf]


/-- C7 witness: moving the INCOME transaction T1 from TR1 to TR2. -/
theorem transferTransaction_spec_witness :
    ("TR1" : String) ≠ "TR2" ∧
    (treasuryTotal (transferTransaction stateW7 "T1" "TR2").treasury
        = treasuryTotal stateW7.treasury ∧
      (transferTransaction stateW7 "T1" "TR2").allTransactions.find?
          (fun t => t.id == "T1")
        = some { txnW with treasuryId := some "TR2" }) :=
  ⟨by decide, (transferTransaction_spec stateW7 "T1" "TR2").1 txnW "TR1"
    treasuryW1 treasuryW2 rfl rfl (by decide) rfl rfl (by decide)⟩

theorem addTransaction_allTransactions (s : DataState) (td : TransactionData)
    (now : Nat) (u : Bool) :
    (addTransaction s td now u).allTransactions
      = mkNewTransaction td now :: s.allTransactions := by
  unfold addTransaction
  split
  · split
    · rw [updateTreasuryBalance_allTransactions]
    · rfl
  · rfl

theorem updateTreasuryBalance_treasury_fn (s₁ : DataState) (tid : String)
    (a : ℚ) (ty : TransactionType) :
    (updateTreasuryBalance s₁ tid a ty).treasury
      = match s₁.treasury.find? (fun tr => tr.id == tid) with
        | none => s₁.treasury
        | some t => s₁.treasury.map (fun tr => if tr.id == tid then
            { tr with balance :=
                if ty = TransactionType.INCOME then t.balance + a
                else t.balance - a }
            else tr) := by
  unfold updateTreasuryBalance
  split
  next heq => rfl
  next t heq => rfl

theorem deleteTransaction_treasury (s : DataState) (id : String)
    (txn : Transaction) (tid : String) (t : Treasury)
    (hf : s.allTransactions.find? (fun x => x.id == id) = some txn)
    (htid : txn.treasuryId = some tid)
    (ht : s.treasury.find? (fun tr => tr.id == tid) = some t) :
    (deleteTransaction s id).treasury
      = s.treasury.map (fun tr => if tr.id == tid then
          { tr with balance :=
              if (if txn.type = TransactionType.INCOME then TransactionType.EXPENSE
                  else TransactionType.INCOME) = TransactionType.INCOME
              then t.balance + txn.amount else t.balance - txn.amount }
          else tr) := by
  simp only [deleteTransaction, hf, htid]
  repeat' split
  all_goals rw [updateTreasuryBalance_treasury_fn]
  all_goals (try dsimp only)
  all_goals rw [ht]
  all_goals simp_all


/-- C3: adding a transaction with updateTreasury = true against an
existing treasury and then deleting the freshly added transaction brings
that treasury balance back to its original value (an income is reversed
by an equal debit, an expense by an equal credit). -/
theorem transaction_roundtrip (s : DataState) (td : TransactionData) (now : Nat)
    (tid : String) (t : Treasury)
    (htid : td.treasuryId = some tid)
    (ht : s.treasury.find? (fun tr => tr.id == tid) = some t) :
    ((deleteTransaction (addTransaction s td now true)
        ("T" ++ toString now)).treasury.find?
        (fun tr => tr.id == tid)).map Treasury.balance = some t.balance := by
  have hAddTre : (addTransaction s td now true).treasury
      = s.treasury.map (fun tr => if tr.id == tid then
          { tr with balance :=
              if td.type = TransactionType.INCOME then t.balance + td.amount
              else t.balance - td.amount }
          else tr) := by
    simp only [addTransaction, htid]
    rw [if_pos trivial, updateTreasuryBalance_treasury_fn]
    dsimp only
    rw [ht]
  have hfindNew : (addTransaction s td now true).allTransactions.find?
      (fun x => x.id == ("T" ++ toString now)) = some (mkNewTransaction td now) := by
    rw [addTransaction_allTransactions]
    exact List.find?_cons_of_pos _ (by simp [mkNewTransaction])
  have hfind1 : (addTransaction s td now true).treasury.find?
      (fun tr => tr.id == tid)
      = some { t with balance :=
          if td.type = TransactionType.INCOME then t.balance + td.amount
          else t.balance - td.amount } := by
    rw [hAddTre]
    exact treasury_find_map _ _ _ _ ht
  have hDelTre := deleteTransaction_treasury (addTransaction s td now true)
      ("T" ++ toString now) (mkNewTransaction td now) tid
      ({ t with balance :=
          if td.type = TransactionType.INCOME then t.balance + td.amount
          else t.balance - td.amount })
      hfindNew (by simp [mkNewTransaction, htid]) hfind1
  rw [hDelTre, hAddTre]
  rw [treasury_find_map _ _ _ _ (treasury_find_map _ _ _ _ ht)]
  simp only [Option.map_some, mkNewTransaction]
  by_cases hty : td.type = TransactionType.INCOME <;> simp [hty]


/-- C3 witness: an INCOME of 5 into TR1, added and deleted again. -/
theorem transaction_roundtrip_witness :
    (stateW7.treasury.find? (fun tr => tr.id == "TR1") = some treasuryW1) ∧
    ((deleteTransaction (addTransaction stateW7 tdW 3 true)
        ("T" ++ toString 3)).treasury.find?
        (fun tr => tr.id == "TR1")).map Treasury.balance
      = some treasuryW1.balance :=
  ⟨rfl, transaction_roundtrip stateW7 tdW 3 "TR1" treasuryW1 rfl rfl⟩

theorem addTransaction_allBookings (s : DataState) (td : TransactionData)
    (now : Nat) (u : Bool) :
    (addTransaction s td now u).allBookings = s.allBookings := by
  unfold addTransaction
  split
  · split
    · rw [(updateTreasuryBalance_bookings _ _ _ _).2]
    · rfl
  · rfl

theorem addTransaction_clients (s : DataState) (td : TransactionData)
    (now : Nat) (u : Bool) :
    (addTransaction s td now u).clients = s.clients := by
  unfold addTransaction
  split
  · split
    · rw [updateTreasuryBalance_clients]
    · rfl
  · rfl

theorem addTransaction_treasury_of_false (s : DataState) (td : TransactionData)
    (now : Nat) :
    (addTransaction s td now false).treasury = s.treasury := rfl

theorem updateTreasuryBalance_allBookings (s : DataState) (tid : String)
    (a : ℚ) (ty : TransactionType) :
    (updateTreasuryBalance s tid a ty).allBookings = s.allBookings := by
  unfold updateTreasuryBalance
  split <;> rfl

theorem updateBooking_treasury (s : DataState) (id : String)
    (patch : Booking → Booking) :
    (updateBooking s id patch).treasury = s.treasury := rfl

theorem bookings_find_map (l : List Booking) (bid : String) (np : ℚ)
    (ns : String) (pl : List Payment) (b : Booking)
    (hf : l.find? (fun x => x.id == bid) = some b) :
    (l.map (fun x => if x.id == bid then
        { x with paidAmount := np, paymentStatus := ns, payments := pl }
      else x)).find? (fun x => x.id == bid)
      = some { b with paidAmount := np, paymentStatus := ns, payments := pl } := by
  induction l with
  | nil => simp at hf
  | cons a l ih =>
    rw [List.map_cons]
    by_cases ha : (a.id == bid) = true
    · rw [List.find?_cons_of_pos (p := fun x : Booking => x.id == bid) _ ha] at hf
      injection hf with hf
      subst hf
      rw [if_pos ha, List.find?_cons_of_pos (p := fun x : Booking => x.id == bid)
        (a := { a with paidAmount := np, paymentStatus := ns, payments := pl }) _ ha]
    · rw [List.find?_cons_of_neg (p := fun x : Booking => x.id == bid) _ ha] at hf
      rw [if_neg ha, List.find?_cons_of_neg (p := fun x : Booking => x.id == bid) _ ha]
      exact ih hf

/-- C1: addBookingPayment on an existing booking sets its paidAmount to
the sum of finalAmount over the previous payments plus the new payment,
appends the payment, derives paymentStatus (Paid when the sum reaches
amount - 0.01, else Partial when positive, else Unpaid), debits the first
client whose name equals the booking client name by finalAmount, and
credits the treasury named by the payment treasuryId by finalAmount; when
no booking carries the id the state is untouched. -/
theorem addBookingPayment_spec (s : DataState) (bookingId : String)
    (payment : Payment) (now : Nat) :
    (∀ booking, s.allBookings.find? (fun b => b.id == bookingId) = some booking →
      (((addBookingPayment s bookingId payment now).allBookings.find?
          (fun b => b.id == bookingId))
        = some { booking with
            paidAmount := (booking.payments.map Payment.finalAmount).sum
              + payment.finalAmount,
            paymentStatus :=
              if booking.amount - 1/100 ≤
                  (booking.payments.map Payment.finalAmount).sum + payment.finalAmount
              then "Paid"
              else if 0 < (booking.payments.map Payment.finalAmount).sum
                  + payment.finalAmount
              then "Partial" else "Unpaid",
            payments := booking.payments ++ [payment] }) ∧
      (∀ client, s.clients.find? (fun c => c.name == booking.clientName) = some client →
        ((addBookingPayment s bookingId payment now).clients.find?
            (fun c => c.id == client.id)).map Client.balance
          = some (client.balance - payment.finalAmount)) ∧
      (∀ tid t, payment.treasuryId = some tid →
        s.treasury.find? (fun tr => tr.id == tid) = some t →
        ((addBookingPayment s bookingId payment now).treasury.find?
            (fun tr => tr.id == tid)).map Treasury.balance
          = some (t.balance + payment.finalAmount))) ∧
    (s.allBookings.find? (fun b => b.id == bookingId) = none →
      addBookingPayment s bookingId payment now = s) := by
  constructor
  · intro booking hb
    have hS : (booking.payments ++ [payment]).foldl
        (fun sum q => sum + q.finalAmount) 0
        = (booking.payments.map Payment.finalAmount).sum + payment.finalAmount := by
      rw [List.foldl_append, List.sum_eq_foldl, List.foldl_map]
      rfl
    refine ⟨?_, ?_, ?_⟩
    · have hAllB : (addBookingPayment s bookingId payment now).allBookings
          = s.allBookings.map (fun b => if b.id == bookingId then
              { b with
                  paidAmount := (booking.payments ++ [payment]).foldl
                    (fun sum q => sum + q.finalAmount) 0,
                  paymentStatus :=
                    if booking.amount - 1/100 ≤ (booking.payments ++ [payment]).foldl
                        (fun sum q => sum + q.finalAmount) 0
                    then "Paid"
                    else if 0 < (booking.payments ++ [payment]).foldl
                        (fun sum q => sum + q.finalAmount) 0
                    then "Partial" else "Unpaid",
                  payments := booking.payments ++ [payment] }
            else b) := by
        simp only [addBookingPayment, hb]
        rw [addTransaction_allBookings]
        repeat' split
        all_goals (first | rfl | (rw [updateTreasuryBalance_allBookings]; rfl))
      rw [hS] at hAllB
      rw [hAllB]
      exact bookings_find_map _ _ _ _ _ _ hb
    · intro client hc
      have hmem : client ∈ s.clients := List.mem_of_find?_eq_some hc
      have hCl : (addBookingPayment s bookingId payment now).clients
          = s.clients.map (fun c => if c.id == client.id then
              { c with balance := client.balance - payment.finalAmount } else c) := by
        simp only [addBookingPayment, hb, hc]
        rw [addTransaction_clients]
        repeat' split
        all_goals (first | rfl | (rw [updateTreasuryBalance_clients]; rfl))
      rw [hCl]
      apply clients_find_map_balance
      rw [List.find?_isSome]
      exact ⟨client, hmem, by simp⟩
    · intro tid t htid ht2
      have hTre : (addBookingPayment s bookingId payment now).treasury
          = s.treasury.map (fun tr => if tr.id == tid then
              { tr with balance := t.balance + payment.finalAmount } else tr) := by
        simp only [addBookingPayment, hb, htid]
        rw [addTransaction_treasury_of_false]
        repeat' split
        all_goals (rw [updateTreasuryBalance_treasury_fn]; try dsimp only)
        all_goals (rw [updateBooking_treasury, ht2]; simp)
      rw [hTre]
      rw [treasury_find_map _ _ _ _ ht2]
      rfl
  · intro hb
    simp only [addBookingPayment, hb]


/-- C1 witness: a payment of 40 on the 100-JOD booking B1 of client A,
into treasury TR1. -/
theorem addBookingPayment_spec_witness :
    (stateW1.allBookings.find? (fun b => b.id == "B1") = some bookingW1) ∧
    ((addBookingPayment stateW1 "B1" paymentW 7).allBookings.find?
        (fun b => b.id == "B1")
      = some { bookingW1 with
          paidAmount := (bookingW1.payments.map Payment.finalAmount).sum
            + paymentW.finalAmount,
          paymentStatus :=
            if bookingW1.amount - 1/100 ≤
                (bookingW1.payments.map Payment.finalAmount).sum
                  + paymentW.finalAmount
            then "Paid"
            else if 0 < (bookingW1.payments.map Payment.finalAmount).sum
                + paymentW.finalAmount
            then "Partial" else "Unpaid",
          payments := bookingW1.payments ++ [paymentW] }) ∧
    (((addBookingPayment stateW1 "B1" paymentW 7).clients.find?
        (fun c => c.id == clientW.id)).map Client.balance
      = some (clientW.balance - paymentW.finalAmount)) ∧
    (((addBookingPayment stateW1 "B1" paymentW 7).treasury.find?
        (fun tr => tr.id == "TR1")).map Treasury.balance
      = some (treasuryW1.balance + paymentW.finalAmount)) :=
  ⟨rfl,
    ((addBookingPayment_spec stateW1 "B1" paymentW 7).1 bookingW1 rfl).1,
    ((addBookingPayment_spec stateW1 "B1" paymentW 7).1 bookingW1 rfl).2.1
      clientW rfl,
    ((addBookingPayment_spec stateW1 "B1" paymentW 7).1 bookingW1 rfl).2.2
      "TR1" treasuryW1 rfl rfl⟩

end Hawana
